import Mathlib

/-!
Verification of the price-calculation backend (`src/main.py`, `src/schemas.py`).

The computational core is embedded shallowly:
* money amounts are modelled as rationals (`ℚ`); Python's `round(x, 2)` is
  modelled as rounding `100 * x` to the nearest integer, ties to even
  (Python's documented rounding mode), then dividing by 100;
* the pydantic models `Service` and `Package` become Lean structures, with
  the field constraints (`ge=0`, `ge=5`) enforced by the record parsers;
* the persistence collaborator `get_documents` (which lives outside the
  calculator, in `database.py`) is modelled by its result: an
  `Except Unit (List RawDoc)` value — either an error (any exception) or a
  list of raw documents, each an association list of string keys to values;
* `list_services` / `list_packages` (`main.py`) take that read result and
  either construct validated entries from the documents (unknown keys
  filtered away first, as in the `{k: v for k, v in d.items() if k in
  Model.model_fields}` comprehension), or fall back to the built-in
  defaults when the read errors, returns no records, or a record fails
  validation (a pydantic validation error is caught by the same
  `except Exception` that guards the read);
* `calculate_price` (`main.py`) folds over the selected codes exactly as the
  Python loop does: service lookup first (via a dict built by a
  comprehension, so a later duplicate service code overwrites an earlier
  one), then first package in catalog order, then silent skip.
-/

namespace LaserAlmere

/-- Round a rational to the nearest integer, ties to even
(the rounding mode of Python's built-in `round`). -/
def roundHalfEven (q : ℚ) : ℤ :=
  if q - (⌊q⌋ : ℚ) < 1/2 then ⌊q⌋
  else if (1 : ℚ)/2 < q - (⌊q⌋ : ℚ) then ⌊q⌋ + 1
  else if ⌊q⌋ % 2 = 0 then ⌊q⌋ else ⌊q⌋ + 1

/-- Python's `round(x, 2)`: round to 2 decimal places. -/
def round2 (q : ℚ) : ℚ := (roundHalfEven (q * 100) : ℚ) / 100

/-- `schemas.Service`: a catalog entry for a single treatment zone. -/
structure Service where
  name : String
  category : String
  code : String
  price_single : ℚ
  price_package_6x : Option ℚ := none
  duration_min : ℤ
deriving DecidableEq

/-- `schemas.Package`: a bundled catalog entry. -/
structure Package where
  title : String
  description : Option String := none
  code : String
  included_codes : List String
  price_single : ℚ
  promo_6_plus_2 : Bool := true
deriving DecidableEq

/-- A JSON-ish value stored in a persistence document. -/
inductive Value where
  | vStr : String → Value
  | vNum : ℚ → Value
  | vBool : Bool → Value
  | vStrList : List String → Value
  | vNull : Value
deriving DecidableEq

/-- A raw document from the persistence collaborator: string keys to values. -/
abbrev RawDoc := List (String × Value)

/-- Look up a key in a raw document (first binding, as in a Python dict). -/
def lookupKey (d : RawDoc) (k : String) : Option Value :=
  (d.find? (fun kv => kv.1 == k)).map (fun kv => kv.2)

def asStr : Value → Option String
  | .vStr s => some s
  | _ => none

def asNum : Value → Option ℚ
  | .vNum q => some q
  | _ => none

def asInt : Value → Option ℤ
  | .vNum q => if q.den = 1 then some q.num else none
  | _ => none

def asBool : Value → Option Bool
  | .vBool b => some b
  | _ => none

def asStrList : Value → Option (List String)
  | .vStrList l => some l
  | _ => none

/-- The declared fields of `Service` (`Service.model_fields` in pydantic). -/
def serviceFields : List String :=
  ["name", "category", "code", "price_single", "price_package_6x", "duration_min"]

/-- The declared fields of `Package` (`Package.model_fields` in pydantic). -/
def packageFields : List String :=
  ["title", "description", "code", "included_codes", "price_single", "promo_6_plus_2"]

/-- The dict comprehension `{k: v for k, v in d.items() if k in M.model_fields}`:
keep only the bindings whose key is a declared field. -/
def filterFields (fields : List String) (d : RawDoc) : RawDoc :=
  d.filter (fun kv => fields.contains kv.1)

/-- An optional non-negative numeric field (`price_package_6x`): absent or
null yields `none`; a numeric value must be non-negative. -/
def optNonnegNum : Option Value → Option (Option ℚ)
  | none => some none
  | some .vNull => some none
  | some (.vNum q) => if q < 0 then none else some (some q)
  | some _ => none

/-- An optional string field (`description`): absent or null yields `none`. -/
def optStr : Option Value → Option (Option String)
  | none => some none
  | some .vNull => some none
  | some (.vStr s) => some (some s)
  | some _ => none

/-- An optional boolean field with default `true` (`promo_6_plus_2`). -/
def boolDefaultTrue : Option Value → Option Bool
  | none => some true
  | some (.vBool b) => some b
  | some _ => none

/-- `Service(**doc)`: construct a `Service` from a raw document, validating
the pydantic constraints (`price_single ≥ 0`, `duration_min ≥ 5`);
`none` models a pydantic `ValidationError`. -/
def serviceOfDoc (d : RawDoc) : Option Service :=
  match (lookupKey d "name").bind asStr,
        (lookupKey d "category").bind asStr,
        (lookupKey d "code").bind asStr,
        (lookupKey d "price_single").bind asNum,
        optNonnegNum (lookupKey d "price_package_6x"),
        (lookupKey d "duration_min").bind asInt with
  | some name, some category, some code, some price, some p6, some dur =>
      if price < 0 ∨ dur < 5 then none
      else some { name := name, category := category, code := code,
                  price_single := price, price_package_6x := p6,
                  duration_min := dur }
  | _, _, _, _, _, _ => none

/-- `Package(**doc)`: construct a `Package` from a raw document, validating
`price_single ≥ 0`. -/
def packageOfDoc (d : RawDoc) : Option Package :=
  match (lookupKey d "title").bind asStr,
        optStr (lookupKey d "description"),
        (lookupKey d "code").bind asStr,
        (lookupKey d "included_codes").bind asStrList,
        (lookupKey d "price_single").bind asNum,
        boolDefaultTrue (lookupKey d "promo_6_plus_2") with
  | some title, some descr, some code, some inc, some price, some promo =>
      if price < 0 then none
      else some { title := title, description := descr, code := code,
                  included_codes := inc, price_single := price,
                  promo_6_plus_2 := promo }
  | _, _, _, _, _, _ => none

/-- `main.DEFAULT_SERVICES`: the built-in fallback service catalog. -/
def DEFAULT_SERVICES : List Service :=
  [ { name := "Oksels", category := "Oksels", code := "OKS",
      price_single := 39, duration_min := 15 },
    { name := "Bikinilijn klein", category := "Bikinilijn", code := "BIK-K",
      price_single := 49, duration_min := 20 },
    { name := "Bikinilijn groot", category := "Bikinilijn", code := "BIK-G",
      price_single := 69, duration_min := 25 },
    { name := "Onderbenen", category := "Benen", code := "BEN-OND",
      price_single := 79, duration_min := 30 },
    { name := "Bovenbenen", category := "Benen", code := "BEN-BOV",
      price_single := 89, duration_min := 35 },
    { name := "Hele benen", category := "Benen", code := "BEN-HELE",
      price_single := 129, duration_min := 55 },
    { name := "Bovenlip", category := "Gezicht", code := "GEZ-LIP",
      price_single := 29, duration_min := 10 },
    { name := "Kin", category := "Gezicht", code := "GEZ-KIN",
      price_single := 29, duration_min := 10 },
    { name := "Gehele gelaat", category := "Gezicht", code := "GEZ-FULL",
      price_single := 79, duration_min := 35 },
    { name := "Onderarmen", category := "Armen", code := "ARM-OND",
      price_single := 59, duration_min := 25 },
    { name := "Hele armen", category := "Armen", code := "ARM-HELE",
      price_single := 89, duration_min := 35 } ]

/-- `main.DEFAULT_PACKAGES`: the built-in fallback package catalog. -/
def DEFAULT_PACKAGES : List Package :=
  [ { title := "Full body",
      description := some "Hele armen + oksels + buik + hele benen + bikinilijn klein",
      code := "FB-STD",
      included_codes := ["ARM-HELE", "OKS", "BEN-HELE", "BIK-K"],
      price_single := 279, promo_6_plus_2 := true },
    { title := "Full body + gelaat",
      description := some "Full body met gehele gelaat als luxere variant",
      code := "FB-LUX",
      included_codes := ["ARM-HELE", "OKS", "BEN-HELE", "BIK-K", "GEZ-FULL"],
      price_single := 329, promo_6_plus_2 := true } ]

/-- The list comprehension
`[Service(**{k: v for k, v in d.items() if k in Service.model_fields}) for d in docs]`:
build every service; a validation error anywhere aborts the whole list
(the exception propagates). -/
def parseServices : List RawDoc → Option (List Service)
  | [] => some []
  | d :: ds =>
      match serviceOfDoc (filterFields serviceFields d), parseServices ds with
      | some s, some ss => some (s :: ss)
      | _, _ => none

/-- The corresponding comprehension for packages. -/
def parsePackages : List RawDoc → Option (List Package)
  | [] => some []
  | d :: ds =>
      match packageOfDoc (filterFields packageFields d), parsePackages ds with
      | some p, some ps => some (p :: ps)
      | _, _ => none

/-- `main.list_services`, as a function of the persistence read result:
on a successful, non-empty read whose records all validate, the constructed
services; otherwise (read error, empty read, or validation error) the
built-in defaults. -/
def list_services (read : Except Unit (List RawDoc)) : List Service :=
  match read with
  | .error _ => DEFAULT_SERVICES
  | .ok docs =>
      if docs.isEmpty then DEFAULT_SERVICES
      else
        match parseServices docs with
        | some ss => ss
        | none => DEFAULT_SERVICES

/-- `main.list_packages`, as a function of the persistence read result. -/
def list_packages (read : Except Unit (List RawDoc)) : List Package :=
  match read with
  | .error _ => DEFAULT_PACKAGES
  | .ok docs =>
      if docs.isEmpty then DEFAULT_PACKAGES
      else
        match parsePackages docs with
        | some ps => ps
        | none => DEFAULT_PACKAGES

/-- One line item of the calculation result: the dict
`{"code": .., "name": .., "price": ..}`, with the extra key `"package": True`
present only on package items (modelled by the `package` field being
`some true` versus `none`). -/
structure LineItem where
  code : String
  name : String
  price : ℚ
  package : Option Bool := none
deriving DecidableEq

/-- `main.PriceCalcRequest`. -/
structure PriceCalcRequest where
  selected_codes : List String
  sessions : ℤ := 1
deriving DecidableEq

/-- `main.PriceCalcResponse`. -/
structure PriceCalcResponse where
  items : List LineItem
  subtotal : ℚ
  promo_label : Option String := none
  total : ℚ
deriving DecidableEq

/-- The dict comprehension `{s.code: s for s in list_services()}` as a lookup
function: a later service with the same code overwrites an earlier one. -/
def serviceMap (ss : List Service) (code : String) : Option Service :=
  ss.foldl (fun acc s => if s.code == code then some s else acc) none

/-- One iteration of the `for code in payload.selected_codes` loop:
service lookup first, then the first package whose code matches, otherwise
no change; the accumulator is the pair (items so far, subtotal so far). -/
def calcStep (sv : List Service) (pk : List Package)
    (acc : List LineItem × ℚ) (code : String) : List LineItem × ℚ :=
  match serviceMap sv code with
  | some s =>
      (acc.1 ++ [{ code := code, name := s.name, price := s.price_single }],
       acc.2 + s.price_single)
  | none =>
      match pk.find? (fun p => p.code == code) with
      | some p =>
          (acc.1 ++ [{ code := code, name := p.title, price := p.price_single,
                       package := some true }],
           acc.2 + p.price_single)
      | none => acc

/-- The line item (if any) one selected code resolves to. -/
def resolveCode (sv : List Service) (pk : List Package) (code : String) :
    Option LineItem :=
  match serviceMap sv code with
  | some s => some { code := code, name := s.name, price := s.price_single }
  | none =>
      (pk.find? (fun p => p.code == code)).map
        (fun p => { code := code, name := p.title, price := p.price_single,
                    package := some true })

/-- The body of `main.calculate_price` after the catalog has been fetched:
fold the loop over the selected codes, then apply the `sessions == 8` promo,
then build the response (`subtotal` and `total` rounded to 2 decimals). -/
def calc_core (sv : List Service) (pk : List Package)
    (selected : List String) (sessions : ℤ) : PriceCalcResponse :=
  let r := selected.foldl (calcStep sv pk) ([], 0)
  let promo_label : Option String :=
    if sessions = 8 then some "6 + 2 gratis" else none
  let total : ℚ := if sessions = 8 then round2 (r.2 * (3/4)) else r.2
  { items := r.1, subtotal := round2 r.2, promo_label := promo_label,
    total := round2 total }

/-- `main.calculate_price`: fetch the catalog from the two persistence read
results, then run the calculation. -/
def calculate_price (sread pread : Except Unit (List RawDoc))
    (payload : PriceCalcRequest) : PriceCalcResponse :=
  calc_core (list_services sread) (list_packages pread)
    payload.selected_codes payload.sessions

/-- Rewrite every package's `promo_6_plus_2` flag (leaving every other field
unchanged); used to state that the calculator never reads that flag. -/
def setPromoFlags (f : Package → Bool) (pk : List Package) : List Package :=
  pk.map (fun p => { p with promo_6_plus_2 := f p })

/-! ## Helper lemmas about rounding -/

theorem roundHalfEven_intCast (n : ℤ) : roundHalfEven (n : ℚ) = n := by
  unfold roundHalfEven
  rw [Int.floor_intCast]
  simp

theorem round2_eval {q : ℚ} {n : ℤ} (h : q * 100 = (n : ℚ)) :
    round2 q = (n : ℚ) / 100 := by
  unfold round2
  rw [h, roundHalfEven_intCast]

theorem floor_le_roundHalfEven (q : ℚ) : ⌊q⌋ ≤ roundHalfEven q := by
  unfold roundHalfEven
  split_ifs <;> omega

theorem roundHalfEven_le_floor_add_one (q : ℚ) : roundHalfEven q ≤ ⌊q⌋ + 1 := by
  unfold roundHalfEven
  split_ifs <;> omega

theorem roundHalfEven_mono : Monotone roundHalfEven := by
  intro q q' h
  rcases lt_or_eq_of_le (Int.floor_mono h) with hf | hf
  · calc roundHalfEven q ≤ ⌊q⌋ + 1 := roundHalfEven_le_floor_add_one q
      _ ≤ ⌊q'⌋ := by omega
      _ ≤ roundHalfEven q' := floor_le_roundHalfEven q'
  · have hr : q - (⌊q⌋ : ℚ) ≤ q' - (⌊q'⌋ : ℚ) := by
      rw [← hf]; linarith
    unfold roundHalfEven
    rw [← hf]
    rw [← hf] at hr
    split_ifs <;> first | omega | linarith

theorem round2_mono : Monotone round2 := by
  intro q q' h
  unfold round2
  have h1 : roundHalfEven (q * 100) ≤ roundHalfEven (q' * 100) :=
    roundHalfEven_mono (by linarith)
  have h2 : ((roundHalfEven (q * 100) : ℚ)) ≤ ((roundHalfEven (q' * 100) : ℚ)) := by
    exact_mod_cast h1
  linarith

theorem round2_zero : round2 0 = 0 := by
  rw [round2_eval (n := 0) (by norm_num)]
  norm_num

theorem round2_nonneg {q : ℚ} (h : 0 ≤ q) : 0 ≤ round2 q := by
  have := round2_mono h
  rw [round2_zero] at this
  exact this

theorem round2_idem (q : ℚ) : round2 (round2 q) = round2 q := by
  unfold round2
  rw [div_mul_cancel₀ _ (by norm_num : (100 : ℚ) ≠ 0), roundHalfEven_intCast]

/-! ## Helper lemmas about the calculation loop -/

theorem calcStep_resolve (sv : List Service) (pk : List Package)
    (acc : List LineItem × ℚ) (code : String) :
    calcStep sv pk acc code =
      match resolveCode sv pk code with
      | some li => (acc.1 ++ [li], acc.2 + li.price)
      | none => acc := by
  unfold calcStep resolveCode
  cases serviceMap sv code with
  | some s => rfl
  | none =>
      cases pk.find? (fun p => p.code == code) with
      | some p => rfl
      | none => rfl

theorem calc_foldl (sv : List Service) (pk : List Package)
    (codes : List String) (acc : List LineItem × ℚ) :
    codes.foldl (calcStep sv pk) acc =
      (acc.1 ++ codes.filterMap (resolveCode sv pk),
       acc.2 + ((codes.filterMap (resolveCode sv pk)).map (fun li => li.price)).sum) := by
  induction codes generalizing acc with
  | nil => simp
  | cons c cs ih =>
      rw [List.foldl_cons, calcStep_resolve, List.filterMap_cons]
      cases h : resolveCode sv pk c with
      | none => simp [ih]
      | some li => simp [ih, add_assoc]

theorem calc_core_items (sv : List Service) (pk : List Package)
    (codes : List String) (s : ℤ) :
    (calc_core sv pk codes s).items = codes.filterMap (resolveCode sv pk) := by
  unfold calc_core
  rw [calc_foldl]
  simp

theorem calc_core_subtotal (sv : List Service) (pk : List Package)
    (codes : List String) (s : ℤ) :
    (calc_core sv pk codes s).subtotal =
      round2 (((codes.filterMap (resolveCode sv pk)).map (fun li => li.price)).sum) := by
  unfold calc_core
  rw [calc_foldl]
  simp

theorem calc_core_promo (sv : List Service) (pk : List Package)
    (codes : List String) (s : ℤ) :
    (calc_core sv pk codes s).promo_label =
      if s = 8 then some "6 + 2 gratis" else none := by
  unfold calc_core
  simp

theorem calc_core_total (sv : List Service) (pk : List Package)
    (codes : List String) (s : ℤ) :
    (calc_core sv pk codes s).total =
      if s = 8 then
        round2 ((((codes.filterMap (resolveCode sv pk)).map (fun li => li.price)).sum) * (3/4))
      else
        round2 (((codes.filterMap (resolveCode sv pk)).map (fun li => li.price)).sum) := by
  unfold calc_core
  rw [calc_foldl]
  by_cases h : s = 8 <;> simp [h, round2_idem]

theorem serviceMap_aux {c : String} {s : Service} :
    ∀ (sv : List Service) (acc : Option Service),
      sv.foldl (fun a x => if x.code == c then some x else a) acc = some s →
      (s ∈ sv ∧ s.code = c) ∨ acc = some s := by
  intro sv
  induction sv with
  | nil => intro acc h; exact Or.inr h
  | cons x xs ih =>
      intro acc h
      rw [List.foldl_cons] at h
      rcases ih _ h with ⟨hm, hc⟩ | hacc
      · exact Or.inl ⟨List.mem_cons_of_mem _ hm, hc⟩
      · by_cases hx : x.code = c
        · rw [if_pos (by simpa using hx)] at hacc
          injection hacc with hs
          exact Or.inl ⟨hs ▸ List.mem_cons_self _ _, hs ▸ hx⟩
        · rw [if_neg (by simpa using hx)] at hacc
          exact Or.inr hacc

theorem serviceMap_some {sv : List Service} {c : String} {s : Service}
    (h : serviceMap sv c = some s) : s ∈ sv ∧ s.code = c := by
  unfold serviceMap at h
  rcases serviceMap_aux sv none h with hg | hbad
  · exact hg
  · exact absurd hbad (by simp)

theorem resolveCode_code {sv : List Service} {pk : List Package} {c : String}
    {li : LineItem} (h : resolveCode sv pk c = some li) : li.code = c := by
  unfold resolveCode at h
  cases hs : serviceMap sv c with
  | some s => rw [hs] at h; injection h with h; rw [← h]
  | none =>
      rw [hs] at h
      cases hp : pk.find? (fun p => p.code == c) with
      | some p => rw [hp] at h; injection h with h; rw [← h]
      | none => rw [hp] at h; exact absurd h (by simp)

theorem resolveCode_price_nonneg {sv : List Service} {pk : List Package} {c : String}
    {li : LineItem} (hsv : ∀ s ∈ sv, 0 ≤ s.price_single)
    (hpk : ∀ p ∈ pk, 0 ≤ p.price_single)
    (h : resolveCode sv pk c = some li) : 0 ≤ li.price := by
  unfold resolveCode at h
  cases hs : serviceMap sv c with
  | some s =>
      rw [hs] at h
      injection h with h
      rw [← h]
      exact hsv s (serviceMap_some hs).1
  | none =>
      rw [hs] at h
      cases hp : pk.find? (fun p => p.code == c) with
      | some p =>
          rw [hp] at h
          injection h with h
          rw [← h]
          exact hpk p (List.mem_of_find?_eq_some hp)
      | none => rw [hp] at h; exact absurd h (by simp)

theorem filterMap_resolve_codes (sv : List Service) (pk : List Package)
    (codes : List String) :
    (codes.filterMap (resolveCode sv pk)).map (fun li => li.code) =
      codes.filter (fun c => (resolveCode sv pk c).isSome) := by
  induction codes with
  | nil => rfl
  | cons c cs ih =>
      rw [List.filterMap_cons, List.filter_cons]
      cases h : resolveCode sv pk c with
      | none => simpa [h] using ih
      | some li =>
          have hc : li.code = c := resolveCode_code h
          simp [h, hc, ih]

/-! ## Helper lemmas about the catalog resolvers -/

theorem filterFields_append_notMem (fields : List String) {k : String}
    (d : RawDoc) (v : Value) (hk : k ∉ fields) :
    filterFields fields (d ++ [(k, v)]) = filterFields fields d := by
  unfold filterFields
  rw [List.filter_append]
  simp [hk]

theorem parseServices_middle (pre post : List RawDoc) {d1 d2 : RawDoc}
    (h : filterFields serviceFields d1 = filterFields serviceFields d2) :
    parseServices (pre ++ d1 :: post) = parseServices (pre ++ d2 :: post) := by
  induction pre with
  | nil => simp only [List.nil_append, parseServices, h]
  | cons x xs ih =>
      simp only [List.cons_append, parseServices, List.append_eq, ih]

theorem parsePackages_middle (pre post : List RawDoc) {d1 d2 : RawDoc}
    (h : filterFields packageFields d1 = filterFields packageFields d2) :
    parsePackages (pre ++ d1 :: post) = parsePackages (pre ++ d2 :: post) := by
  induction pre with
  | nil => simp only [List.nil_append, parsePackages, h]
  | cons x xs ih =>
      simp only [List.cons_append, parsePackages, List.append_eq, ih]

theorem filterFields_keys (fields : List String) (d : RawDoc) :
    ∀ kv ∈ filterFields fields d, kv.1 ∈ fields := by
  intro kv hkv
  unfold filterFields at hkv
  have := List.of_mem_filter hkv
  simpa using this

theorem isEmpty_append_cons {α : Type} (pre post : List α) (x : α) :
    (pre ++ x :: post).isEmpty = false := by
  cases pre <;> rfl

theorem calcStep_setPromoFlags (sv : List Service) (pk : List Package)
    (f : Package → Bool) :
    calcStep sv (setPromoFlags f pk) = calcStep sv pk := by
  funext acc c
  unfold calcStep setPromoFlags
  cases serviceMap sv c with
  | some s => rfl
  | none =>
      rw [List.find?_map]
      have hpred : ((fun p : Package => p.code == c) ∘
          (fun p => { p with promo_6_plus_2 := f p })) =
          (fun p : Package => p.code == c) := rfl
      rw [hpred]
      cases pk.find? (fun p => p.code == c) with
      | some p => rfl
      | none => rfl

/-! ## Concrete evaluations on the seed catalog -/

theorem calc_seed_OKS_8 :
    calc_core DEFAULT_SERVICES DEFAULT_PACKAGES ["OKS"] 8 =
      { items := [{ code := "OKS", name := "Oksels", price := 39 }],
        subtotal := 39, promo_label := some "6 + 2 gratis", total := 117/4 } := by
  have e1 : round2 ((39 : ℚ)) = 39 := by
    rw [round2_eval (n := 3900) (by norm_num)]; norm_num
  have e2 : round2 ((39 : ℚ) * (3/4)) = 117/4 := by
    rw [round2_eval (n := 2925) (by norm_num)]; norm_num
  have e3 : round2 ((117 : ℚ) / 4) = 117/4 := by
    rw [round2_eval (n := 2925) (by norm_num)]; norm_num
  simp [calc_core, calcStep, serviceMap, DEFAULT_SERVICES, DEFAULT_PACKAGES,
    List.foldl, List.find?, e1, e2, e3]

theorem calc_seed_FBSTD_1 :
    calc_core DEFAULT_SERVICES DEFAULT_PACKAGES ["FB-STD"] 1 =
      { items := [{ code := "FB-STD", name := "Full body", price := 279,
                    package := some true }],
        subtotal := 279, promo_label := none, total := 279 } := by
  have e1 : round2 ((279 : ℚ)) = 279 := by
    rw [round2_eval (n := 27900) (by norm_num)]; norm_num
  simp [calc_core, calcStep, serviceMap, DEFAULT_SERVICES, DEFAULT_PACKAGES,
    List.foldl, List.find?, e1]

theorem calc_seed_empty_1 :
    calc_core DEFAULT_SERVICES DEFAULT_PACKAGES [] 1 =
      { items := [], subtotal := 0, promo_label := none, total := 0 } := by
  have e1 : round2 ((0 : ℚ)) = 0 := by
    rw [round2_eval (n := 0) (by norm_num)]; norm_num
  simp [calc_core, List.foldl, e1]

theorem calc_seed_unknown_1 :
    calc_core DEFAULT_SERVICES DEFAULT_PACKAGES ["__nonexistent__"] 1 =
      { items := [], subtotal := 0, promo_label := none, total := 0 } := by
  have e1 : round2 ((0 : ℚ)) = 0 := by
    rw [round2_eval (n := 0) (by norm_num)]; norm_num
  simp [calc_core, calcStep, serviceMap, DEFAULT_SERVICES, DEFAULT_PACKAGES,
    List.foldl, List.find?, e1]

/-! ## The claims -/

/-- C1: For every catalog and request, if `sessions == 8` exactly then the
calculation returns `promo_label = "6 + 2 gratis"` and
`total = round(subtotal * 0.75, 2)`, where `subtotal` is the accumulated sum
of the line-item prices; for every other `sessions` value `promo_label` is
absent and the returned `total` equals the returned `subtotal`. With the seed
catalog, `calculate(["OKS"], 8)` yields subtotal `39.0`,
`promo_label = "6 + 2 gratis"`, and total `29.25` (= 117/4). -/
theorem claim_C1 (sv : List Service) (pk : List Package) (codes : List String)
    (sessions : ℤ) :
    (sessions = 8 →
      (calc_core sv pk codes sessions).promo_label = some "6 + 2 gratis" ∧
      (calc_core sv pk codes sessions).total =
        round2 ((((calc_core sv pk codes sessions).items.map
          (fun li => li.price)).sum) * (3/4))) ∧
    (sessions ≠ 8 →
      (calc_core sv pk codes sessions).promo_label = none ∧
      (calc_core sv pk codes sessions).total =
        (calc_core sv pk codes sessions).subtotal) ∧
    calc_core DEFAULT_SERVICES DEFAULT_PACKAGES ["OKS"] 8 =
      { items := [{ code := "OKS", name := "Oksels", price := 39 }],
        subtotal := 39, promo_label := some "6 + 2 gratis", total := 117/4 } := by
  refine ⟨fun h8 => ⟨?_, ?_⟩, fun hn8 => ⟨?_, ?_⟩, calc_seed_OKS_8⟩
  · rw [calc_core_promo, if_pos h8]
  · rw [calc_core_total, if_pos h8, calc_core_items]
  · rw [calc_core_promo, if_neg hn8]
  · rw [calc_core_total, if_neg hn8, calc_core_subtotal]

/-- Witness for C1: the promo branch at `sessions = 8` and the plain branch
at `sessions = 1`, on the seed catalog. -/
theorem claim_C1_witness :
    (calc_core DEFAULT_SERVICES DEFAULT_PACKAGES ["OKS"] 8).promo_label =
      some "6 + 2 gratis" ∧
    (calc_core DEFAULT_SERVICES DEFAULT_PACKAGES ["OKS"] 1).promo_label = none ∧
    (calc_core DEFAULT_SERVICES DEFAULT_PACKAGES ["OKS"] 1).total =
      (calc_core DEFAULT_SERVICES DEFAULT_PACKAGES ["OKS"] 1).subtotal :=
  ⟨((claim_C1 DEFAULT_SERVICES DEFAULT_PACKAGES ["OKS"] 8).1 rfl).1,
   ((claim_C1 DEFAULT_SERVICES DEFAULT_PACKAGES ["OKS"] 1).2.1 (by decide)).1,
   ((claim_C1 DEFAULT_SERVICES DEFAULT_PACKAGES ["OKS"] 1).2.1 (by decide)).2⟩

/-- C2: The calculator processes the selected codes in input order; each code
resolves independently (service lookup first, with the field projection
`{code, name := service.name, price := service.price_single}`; otherwise the
first package in catalog order whose code matches, projected to
`{code, name := package.title, price := package.price_single}` and marked as a
package), and unmatched codes are dropped — this is exactly
`codes.filterMap (resolveCode sv pk)`. Duplicate codes in the input yield
duplicate line items: a doubled code contributes its line items twice. -/
theorem claim_C2 (sv : List Service) (pk : List Package) (codes : List String)
    (s : ℤ) (c : String) :
    (calc_core sv pk codes s).items = codes.filterMap (resolveCode sv pk) ∧
    (calc_core sv pk (c :: c :: codes) s).items =
      (calc_core sv pk [c] s).items ++ (calc_core sv pk [c] s).items ++
        (calc_core sv pk codes s).items := by
  refine ⟨calc_core_items sv pk codes s, ?_⟩
  simp only [calc_core_items, List.filterMap_cons]
  cases h : resolveCode sv pk c with
  | none => simp [List.filterMap_cons, h]
  | some li => simp [List.filterMap_cons, h]

/-- C3: The returned `subtotal` is the sum of the resolved line-item prices,
rounded to 2 decimal places; the items sequence preserves the input order of
the matched codes (its code sequence is the input filtered to the codes that
resolve); and the empty selection with `sessions = 1` yields
`items = [], subtotal = 0.0, total = 0.0, promo_label = null`. -/
theorem claim_C3 (sv : List Service) (pk : List Package) (codes : List String)
    (s : ℤ) :
    (calc_core sv pk codes s).subtotal =
      round2 ((((calc_core sv pk codes s).items).map (fun li => li.price)).sum) ∧
    ((calc_core sv pk codes s).items).map (fun li => li.code) =
      codes.filter (fun c => (resolveCode sv pk c).isSome) ∧
    calc_core DEFAULT_SERVICES DEFAULT_PACKAGES [] 1 =
      { items := [], subtotal := 0, promo_label := none, total := 0 } := by
  refine ⟨?_, ?_, calc_seed_empty_1⟩
  · rw [calc_core_subtotal, calc_core_items]
  · rw [calc_core_items]
    exact filterMap_resolve_codes sv pk codes

/-- C4: A selected code that matches neither a service code nor a package
code produces no line item and no error: deleting such a code from the
selection leaves the whole response unchanged, and with the seed catalog
`calculate(["__nonexistent__"], 1)` returns `items = [], subtotal = 0,
total = 0` (the function is total, so no input raises). -/
theorem claim_C4 (sv : List Service) (pk : List Package)
    (pre post : List String) (c : String) (s : ℤ)
    (h1 : serviceMap sv c = none)
    (h2 : pk.find? (fun p => p.code == c) = none) :
    calc_core sv pk (pre ++ c :: post) s = calc_core sv pk (pre ++ post) s ∧
    calc_core DEFAULT_SERVICES DEFAULT_PACKAGES ["__nonexistent__"] 1 =
      { items := [], subtotal := 0, promo_label := none, total := 0 } := by
  have hres : resolveCode sv pk c = none := by
    unfold resolveCode
    rw [h1, h2]
    rfl
  have hfm : (pre ++ c :: post).filterMap (resolveCode sv pk) =
      (pre ++ post).filterMap (resolveCode sv pk) := by
    simp [List.filterMap_append, List.filterMap_cons, hres]
  refine ⟨?_, calc_seed_unknown_1⟩
  unfold calc_core
  rw [calc_foldl, calc_foldl, hfm]

/-- Witness for C4: dropping `"__nonexistent__"` (which matches no seed
service and no seed package) from the selection does not change the result. -/
theorem claim_C4_witness :
    calc_core DEFAULT_SERVICES DEFAULT_PACKAGES
        (["OKS"] ++ "__nonexistent__" :: []) 1 =
      calc_core DEFAULT_SERVICES DEFAULT_PACKAGES (["OKS"] ++ []) 1 ∧
    calc_core DEFAULT_SERVICES DEFAULT_PACKAGES ["__nonexistent__"] 1 =
      { items := [], subtotal := 0, promo_label := none, total := 0 } :=
  claim_C4 DEFAULT_SERVICES DEFAULT_PACKAGES ["OKS"] [] "__nonexistent__" 1
    (by decide) (by decide)

/-- C5: When the persistence read for a catalog collection fails (any error)
or returns zero records, the resolver returns the fixed built-in seed list
(the same value on every call, the resolver being a pure function of the read
result); and on any read result whatsoever the resolver either returns the
seed list whole or a list constructed entirely from the stored records
(`parseServices`/`parsePackages` succeeds on exactly the returned list) —
never a mix. -/
theorem claim_C5 :
    list_services (Except.error ()) = DEFAULT_SERVICES ∧
    list_services (Except.ok []) = DEFAULT_SERVICES ∧
    list_packages (Except.error ()) = DEFAULT_PACKAGES ∧
    list_packages (Except.ok []) = DEFAULT_PACKAGES ∧
    (∀ r : Except Unit (List RawDoc),
      list_services r = DEFAULT_SERVICES ∨
      ∃ docs, r = Except.ok docs ∧
        parseServices docs = some (list_services r)) ∧
    (∀ r : Except Unit (List RawDoc),
      list_packages r = DEFAULT_PACKAGES ∨
      ∃ docs, r = Except.ok docs ∧
        parsePackages docs = some (list_packages r)) := by
  refine ⟨rfl, rfl, rfl, rfl, ?_, ?_⟩
  · intro r
    cases r with
    | error e => exact Or.inl rfl
    | ok docs =>
        by_cases hd : docs.isEmpty
        · exact Or.inl (by simp [list_services, hd])
        · cases hp : parseServices docs with
          | none => exact Or.inl (by simp [list_services, hd, hp])
          | some ss => exact Or.inr ⟨docs, rfl, by simp [list_services, hd, hp]⟩
  · intro r
    cases r with
    | error e => exact Or.inl rfl
    | ok docs =>
        by_cases hd : docs.isEmpty
        · exact Or.inl (by simp [list_packages, hd])
        · cases hp : parsePackages docs with
          | none => exact Or.inl (by simp [list_packages, hd, hp])
          | some ps => exact Or.inr ⟨docs, rfl, by simp [list_packages, hd, hp]⟩

/-- C6: Every line item produced for a matched package code carries the
package marker set to `true` (the `"package": True` key of the Python dict),
and that marker is present exactly on package line items: any item in any
result either is a package item (marker `some true`, its code matching no
service but some package) or is a service item (marker absent, its code
matching a service). With the seed catalog, `calculate(["FB-STD"], 1)` yields
the single package line item named "Full body" with subtotal = total = 279. -/
theorem claim_C6 (sv : List Service) (pk : List Package) (codes : List String)
    (s : ℤ) (li : LineItem) (h : li ∈ (calc_core sv pk codes s).items) :
    ((li.package = some true ∧ serviceMap sv li.code = none ∧
        (pk.find? (fun p => p.code == li.code)).isSome) ∨
     (li.package = none ∧ (serviceMap sv li.code).isSome)) ∧
    calc_core DEFAULT_SERVICES DEFAULT_PACKAGES ["FB-STD"] 1 =
      { items := [{ code := "FB-STD", name := "Full body", price := 279,
                    package := some true }],
        subtotal := 279, promo_label := none, total := 279 } := by
  refine ⟨?_, calc_seed_FBSTD_1⟩
  rw [calc_core_items] at h
  obtain ⟨c, hc, hres⟩ := List.mem_filterMap.mp h
  have hcode : li.code = c := resolveCode_code hres
  unfold resolveCode at hres
  cases hs : serviceMap sv c with
  | some x =>
      rw [hs] at hres
      injection hres with hres
      right
      refine ⟨by rw [← hres], ?_⟩
      rw [hcode, hs]
      rfl
  | none =>
      rw [hs] at hres
      cases hp : pk.find? (fun p => p.code == c) with
      | none =>
          rw [hp] at hres
          exact absurd hres (by simp)
      | some p =>
          rw [hp] at hres
          injection hres with hres
          left
          refine ⟨by rw [← hres], by rw [hcode, hs], ?_⟩
          rw [hcode, hp]
          rfl

/-- Witness for C6: the line item of `calculate(["FB-STD"], 1)` on the seed
catalog, whose package marker is `some true`. -/
theorem claim_C6_witness :
    ((({ code := "FB-STD", name := "Full body", price := 279,
         package := some true } : LineItem).package = some true ∧
      serviceMap DEFAULT_SERVICES "FB-STD" = none ∧
      (DEFAULT_PACKAGES.find? (fun p => p.code == "FB-STD")).isSome) ∨
     (({ code := "FB-STD", name := "Full body", price := 279,
         package := some true } : LineItem).package = none ∧
      (serviceMap DEFAULT_SERVICES "FB-STD").isSome)) ∧
    calc_core DEFAULT_SERVICES DEFAULT_PACKAGES ["FB-STD"] 1 =
      { items := [{ code := "FB-STD", name := "Full body", price := 279,
                    package := some true }],
        subtotal := 279, promo_label := none, total := 279 } :=
  claim_C6 DEFAULT_SERVICES DEFAULT_PACKAGES ["FB-STD"] 1
    { code := "FB-STD", name := "Full body", price := 279, package := some true }
    (by rw [calc_seed_FBSTD_1]; exact List.mem_singleton_self _)

/-- C7: Raw records are projected to the declared fields of the entry type
before construction: inserting a binding for any key that is not a declared
field into any stored record changes nothing about the resolver's output, and
every binding that survives the projection has a declared field as its key. -/
theorem claim_C7 (pre post : List RawDoc) (d : RawDoc) (k : String) (v : Value)
    (hs : k ∉ serviceFields) (hp : k ∉ packageFields) :
    list_services (Except.ok (pre ++ (d ++ [(k, v)]) :: post)) =
      list_services (Except.ok (pre ++ d :: post)) ∧
    list_packages (Except.ok (pre ++ (d ++ [(k, v)]) :: post)) =
      list_packages (Except.ok (pre ++ d :: post)) ∧
    (∀ d' : RawDoc, ∀ kv ∈ filterFields serviceFields d', kv.1 ∈ serviceFields) ∧
    (∀ d' : RawDoc, ∀ kv ∈ filterFields packageFields d', kv.1 ∈ packageFields) := by
  refine ⟨?_, ?_, fun d' => filterFields_keys serviceFields d',
    fun d' => filterFields_keys packageFields d'⟩
  · have hfd := filterFields_append_notMem serviceFields d v hs
    have hparse := parseServices_middle pre post hfd
    simp [list_services, isEmpty_append_cons, hparse]
  · have hfd := filterFields_append_notMem packageFields d v hp
    have hparse := parsePackages_middle pre post hfd
    simp [list_packages, isEmpty_append_cons, hparse]

/-- Witness for C7: inserting a persistence-metadata key `"_id"` into a
stored service record does not change the resolver's output. -/
theorem claim_C7_witness :
    list_services (Except.ok ([] ++
        ([("name", Value.vStr "Oksels"), ("category", Value.vStr "Oksels"),
          ("code", Value.vStr "OKS"), ("price_single", Value.vNum 39),
          ("duration_min", Value.vNum 15)] ++ [("_id", Value.vStr "abc123")]) :: [])) =
      list_services (Except.ok ([] ++
        [("name", Value.vStr "Oksels"), ("category", Value.vStr "Oksels"),
         ("code", Value.vStr "OKS"), ("price_single", Value.vNum 39),
         ("duration_min", Value.vNum 15)] :: [])) ∧
    list_packages (Except.ok ([] ++
        ([("name", Value.vStr "Oksels"), ("category", Value.vStr "Oksels"),
          ("code", Value.vStr "OKS"), ("price_single", Value.vNum 39),
          ("duration_min", Value.vNum 15)] ++ [("_id", Value.vStr "abc123")]) :: [])) =
      list_packages (Except.ok ([] ++
        [("name", Value.vStr "Oksels"), ("category", Value.vStr "Oksels"),
         ("code", Value.vStr "OKS"), ("price_single", Value.vNum 39),
         ("duration_min", Value.vNum 15)] :: [])) ∧
    (∀ d' : RawDoc, ∀ kv ∈ filterFields serviceFields d', kv.1 ∈ serviceFields) ∧
    (∀ d' : RawDoc, ∀ kv ∈ filterFields packageFields d', kv.1 ∈ packageFields) :=
  claim_C7 [] []
    [("name", Value.vStr "Oksels"), ("category", Value.vStr "Oksels"),
     ("code", Value.vStr "OKS"), ("price_single", Value.vNum 39),
     ("duration_min", Value.vNum 15)]
    "_id" (Value.vStr "abc123") (by decide) (by decide)

/-- C8: For a fixed catalog snapshot and a fixed list of selected codes, the
items and the subtotal of the response are identical for any two values of
`sessions`; the session count influences only the promo label and the
total. -/
theorem claim_C8 (sv : List Service) (pk : List Package) (codes : List String)
    (s1 s2 : ℤ) :
    (calc_core sv pk codes s1).items = (calc_core sv pk codes s2).items ∧
    (calc_core sv pk codes s1).subtotal = (calc_core sv pk codes s2).subtotal :=
  ⟨rfl, rfl⟩

/-- C9: The calculator never reads the `promo_6_plus_2` flag of any package:
rewriting the flag of every package arbitrarily leaves the entire response
unchanged; at `sessions = 8` the promo label is set even when every package
has the flag `false` and even when the items list is empty. -/
theorem claim_C9 (sv : List Service) (pk : List Package) (codes : List String)
    (s : ℤ) (f : Package → Bool) :
    calc_core sv (setPromoFlags f pk) codes s = calc_core sv pk codes s ∧
    (calc_core sv (setPromoFlags (fun _ => false) pk) codes 8).promo_label =
      some "6 + 2 gratis" ∧
    (calc_core sv pk [] 8).promo_label = some "6 + 2 gratis" := by
  refine ⟨?_, ?_, ?_⟩
  · unfold calc_core
    rw [calcStep_setPromoFlags sv pk f]
  · rw [calc_core_promo]
    simp
  · rw [calc_core_promo]
    simp

/-- C10: For every catalog whose entries all have a non-negative
`price_single` (as the pydantic schema requires) and every input, the
response satisfies `0 ≤ subtotal`, `0 ≤ total` and `total ≤ subtotal`. -/
theorem claim_C10 (sv : List Service) (pk : List Package) (codes : List String)
    (s : ℤ) (hsv : ∀ x ∈ sv, 0 ≤ x.price_single)
    (hpk : ∀ p ∈ pk, 0 ≤ p.price_single) :
    0 ≤ (calc_core sv pk codes s).subtotal ∧
    0 ≤ (calc_core sv pk codes s).total ∧
    (calc_core sv pk codes s).total ≤ (calc_core sv pk codes s).subtotal := by
  have hraw : 0 ≤ ((codes.filterMap (resolveCode sv pk)).map
      (fun li => li.price)).sum := by
    apply List.sum_nonneg
    intro x hx
    obtain ⟨li, hli, hx⟩ := List.mem_map.mp hx
    obtain ⟨c, _, hres⟩ := List.mem_filterMap.mp hli
    rw [← hx]
    exact resolveCode_price_nonneg hsv hpk hres
  refine ⟨?_, ?_, ?_⟩
  · rw [calc_core_subtotal]
    exact round2_nonneg hraw
  · rw [calc_core_total]
    split_ifs
    · exact round2_nonneg (by linarith)
    · exact round2_nonneg hraw
  · rw [calc_core_total, calc_core_subtotal]
    split_ifs
    · exact round2_mono (by linarith)
    · exact le_refl _

/-- Witness for C10: the bounds hold on the seed catalog (whose prices are
all non-negative) for the selection `["OKS", "FB-STD"]` at `sessions = 8`. -/
theorem claim_C10_witness :
    0 ≤ (calc_core DEFAULT_SERVICES DEFAULT_PACKAGES ["OKS", "FB-STD"] 8).subtotal ∧
    0 ≤ (calc_core DEFAULT_SERVICES DEFAULT_PACKAGES ["OKS", "FB-STD"] 8).total ∧
    (calc_core DEFAULT_SERVICES DEFAULT_PACKAGES ["OKS", "FB-STD"] 8).total ≤
      (calc_core DEFAULT_SERVICES DEFAULT_PACKAGES ["OKS", "FB-STD"] 8).subtotal :=
  claim_C10 DEFAULT_SERVICES DEFAULT_PACKAGES ["OKS", "FB-STD"] 8
    (by decide) (by decide)

end LaserAlmere
